import Mathlib

/-!
Shallow embedding of the two example programs of the `ocl` repository,
`src/examples/timed.rs` and `src/examples/info.rs`, together with proofs of
the behavioural properties stated about them.  Machine floats (`f32`) are
modelled as exact rationals, machine integers (`i32`, `usize`) as `Int`
resp. `Nat`; console output is modelled as lists of structured lines, and
each fallible external-library call as an oracle-driven step.
-/

namespace Ocl

/-- Truth of an `Except` value being a success. -/
def isOkE {ε α : Type _} : Except ε α → Bool
  | Except.ok _ => true
  | Except.error _ => false

namespace Timed

/-- Constant `DATASET_SIZE` of timed.rs. -/
def DATASET_SIZE : Nat := 1000000

/-- Constant `KERNEL_RUN_ITERS` of timed.rs (an `i32`). -/
def KERNEL_RUN_ITERS : Int := 800

/-- Constant `BUFFER_READ_ITERS` of timed.rs (an `i32`). -/
def BUFFER_READ_ITERS : Int := 20

/-- Constant `KERNEL_AND_BUFFER_ITERS` of timed.rs (an `i32`). -/
def KERNEL_AND_BUFFER_ITERS : Int := 10000

/-- Constant `SCALAR` of timed.rs (an `f32`, modelled as a rational). -/
def SCALAR : ℚ := 1

/-- Constant `PRINT_SOME_RESULTS` of timed.rs. -/
def PRINT_SOME_RESULTS : Bool := true

/-- Constant `RESULTS_TO_PRINT` of timed.rs (a `usize`). -/
def RESULTS_TO_PRINT : Nat := 5

/-- An `ocl::Buffer` as used by timed.rs: a device-side array and a
host-side vector, both modelled as total maps from index to value. -/
structure OclBuffer where
  dev : Nat → ℚ
  host : Nat → ℚ

/-- The `add` OpenCL kernel of timed.rs: for every global id `idx` inside
the work dimensions (`DATASET_SIZE`), `result[idx] = source[idx] + scalar`;
entries outside the work dimensions are untouched. -/
def kernelAdd (source : Nat → ℚ) (scalar : ℚ) (result : Nat → ℚ) : Nat → ℚ :=
  fun idx => if idx < DATASET_SIZE then source idx + scalar else result idx

/-- One enqueue of the `add` kernel after timed.rs has set the `source`
argument to the result buffer itself (line 72 of timed.rs). -/
def enqueueSelf (s : ℚ) (b : OclBuffer) : OclBuffer :=
  { b with dev := kernelAdd b.dev s b.dev }

/-- `Buffer::fill_vec`: read the device-side contents into the host-side
vector. -/
def fill_vec (b : OclBuffer) : OclBuffer :=
  { b with host := b.dev }

/-- A zero-initialised buffer, as produced by `Buffer::with_vec`. -/
def bufferZero : OclBuffer :=
  { dev := fun _ => 0, host := fun _ => 0 }

/-- The result buffer of timed.rs after `k` completed enqueues of the
`add` kernel: the first enqueue reads from `buffer_init` (holding `init`),
every later one reads from the result buffer itself, exactly as in
timed.rs lines 69-77. -/
def resultAfterEnqueues (init : Nat → ℚ) (s : ℚ) (k : Nat) : OclBuffer :=
  match k with
  | 0 => bufferZero
  | j + 1 => (enqueueSelf s)^[j] { bufferZero with dev := kernelAdd init s bufferZero.dev }

/-- The `margin_of_error` local of `verify_results` (`0.1 as f32`). -/
def margin_of_error : ℚ := 1 / 10

/-- The per-index tolerance predicate checked by the `assert!` of
`verify_results`: `(correct - buffer_result[idx]).abs() < margin_of_error`
with `correct = buffer_init[idx] + iters as f32 * SCALAR`. -/
def okPred (bi br : Nat → ℚ) (it : Int) (idx : Nat) : Prop :=
  |bi idx + (it : ℚ) * SCALAR - br idx| < margin_of_error

instance (bi br : Nat → ℚ) (it : Int) (idx : Nat) : Decidable (okPred bi br it idx) := by
  unfold okPred
  infer_instance

/-- The condition of the sample-printing branch of `verify_results`
(line 198 of timed.rs). -/
def printSampleCond (idx : Nat) : Bool :=
  PRINT_SOME_RESULTS && (idx % (DATASET_SIZE / RESULTS_TO_PRINT) == 0)

/-- A line produced inside the `verify_results` loop: either one of the
sample lines, or the diagnostic of a failed `assert!`, which lists the
index, the initial value, the expected value, the margin and the actual
value. -/
inductive VerifyLine where
  | sample (idx : Nat) (initVal correct resultVal : ℚ)
  | invalid (idx : Nat) (initVal correct margin resultVal : ℚ)
deriving DecidableEq

/-- The index field of a `VerifyLine`. -/
def sampleIdx : VerifyLine → Nat
  | VerifyLine.sample idx _ _ _ => idx
  | VerifyLine.invalid idx _ _ _ _ => idx

/-- The loop `for idx in 0..DATASET_SIZE` of `verify_results`, processing
`rem` further indices starting at `idx`: each index is checked against the
tolerance (the `assert!`), the failing diagnostic aborts the run, and the
sample lines of the in-tolerance indices are collected. -/
def verifyLoop (bi br : Nat → ℚ) (it : Int) : Nat → Nat → Except VerifyLine (List VerifyLine)
  | _, 0 => Except.ok []
  | idx, rem + 1 =>
    if |bi idx + (it : ℚ) * SCALAR - br idx| < margin_of_error then
      match verifyLoop bi br it (idx + 1) rem with
      | Except.error e => Except.error e
      | Except.ok rest =>
        if printSampleCond idx then
          Except.ok (VerifyLine.sample idx (bi idx) (bi idx + (it : ℚ) * SCALAR) (br idx) :: rest)
        else
          Except.ok rest
    else
      Except.error
        (VerifyLine.invalid idx (bi idx) (bi idx + (it : ℚ) * SCALAR) margin_of_error (br idx))

/-- The closing message of a successful `verify_results` run. -/
def allCorrectMsg : String := "All result values are correct."

/-- `verify_results` of timed.rs: run the checking loop over all of
`0..DATASET_SIZE`; on success the program continues, having printed the
sample lines and the closing message; a failed `assert!` halts with its
diagnostic line. -/
def verify_results (bi br : Nat → ℚ) (it : Int) :
    Except VerifyLine (List VerifyLine × String) :=
  (verifyLoop bi br it 0 DATASET_SIZE).map (fun samples => (samples, allCorrectMsg))

/-- The five commented sections of `main` in timed.rs, in source order:
KERNEL, BUFFER, KERNEL & BUFFER BLOCKING, KERNEL & BUFFER NON-BLOCKING,
and the final CAUTION IS OVERRATED section. -/
inductive SectionKind where
  | kernel
  | buffer
  | kernelBufferBlocking
  | kernelBufferNonBlocking
  | kernelBufferUnordered
deriving DecidableEq

/-- An observable event of `main` in timed.rs: starting a timer
(`Instant::now()` opening a timed section), printing an elapsed time, an
`add`-kernel enqueue, a buffer read (`fill_vec` / `fill_vec_async`), or a
call of `verify_results` with its `iters` argument. -/
inductive TimedEvent where
  | startTimer (k : SectionKind)
  | printElapsedEv
  | enq
  | fill
  | verifyCall (iters : Int)
deriving DecidableEq

/-- Event trace of the KERNEL section (timed.rs lines 58-83): the timer,
one first enqueue, `KERNEL_RUN_ITERS - 1` further enqueues, one elapsed
print. -/
def kernelSectionTrace : List TimedEvent :=
  [TimedEvent.startTimer SectionKind.kernel, TimedEvent.enq] ++
    List.replicate (KERNEL_RUN_ITERS - 1).toNat TimedEvent.enq ++
    [TimedEvent.printElapsedEv]

/-- Event trace of the BUFFER section (timed.rs lines 85-102): the timer,
`BUFFER_READ_ITERS` buffer reads, two elapsed prints. -/
def bufferSectionTrace : List TimedEvent :=
  [TimedEvent.startTimer SectionKind.buffer] ++
    List.replicate BUFFER_READ_ITERS.toNat TimedEvent.fill ++
    [TimedEvent.printElapsedEv, TimedEvent.printElapsedEv]

/-- Event trace of one kernel-and-buffer section of timed.rs (each of the
three runs `KERNEL_AND_BUFFER_ITERS` enqueue-then-read sequences between
its timer and two elapsed prints). -/
def kbSectionTrace (k : SectionKind) : List TimedEvent :=
  [TimedEvent.startTimer k] ++
    (List.replicate KERNEL_AND_BUFFER_ITERS.toNat [TimedEvent.enq, TimedEvent.fill]).flatten ++
    [TimedEvent.printElapsedEv, TimedEvent.printElapsedEv]

/-- The full event trace of `main` in timed.rs, with the `iters`
arguments of the four `verify_results` calls written as in the source. -/
def mainTrace : List TimedEvent :=
  kernelSectionTrace ++ (bufferSectionTrace ++
    ([TimedEvent.verifyCall KERNEL_RUN_ITERS] ++
    (kbSectionTrace SectionKind.kernelBufferBlocking ++
    ([TimedEvent.verifyCall (KERNEL_AND_BUFFER_ITERS + KERNEL_RUN_ITERS)] ++
    (kbSectionTrace SectionKind.kernelBufferNonBlocking ++
    ([TimedEvent.verifyCall
        (KERNEL_AND_BUFFER_ITERS + KERNEL_AND_BUFFER_ITERS + KERNEL_RUN_ITERS)] ++
    (kbSectionTrace SectionKind.kernelBufferUnordered ++
      [TimedEvent.verifyCall
        (KERNEL_AND_BUFFER_ITERS + KERNEL_AND_BUFFER_ITERS + KERNEL_AND_BUFFER_ITERS +
          KERNEL_RUN_ITERS)])))))))

/-- Projection of an event to the section kind it opens, if any. -/
def startKindOf : TimedEvent → Option SectionKind
  | TimedEvent.startTimer k => some k
  | _ => none

/-- The section kinds opened along a trace, in order. -/
def sectionStarts (l : List TimedEvent) : List SectionKind :=
  l.filterMap startKindOf

/-- Projection of an event to the skeleton of timed sections and
verification calls: section starts on the left, `verify_results`
arguments on the right. -/
def skeletonOf : TimedEvent → Option (SectionKind ⊕ Int)
  | TimedEvent.startTimer k => some (Sum.inl k)
  | TimedEvent.verifyCall n => some (Sum.inr n)
  | _ => none

/-- The skeleton of a trace: its section starts and verification calls,
in order. -/
def skeleton (l : List TimedEvent) : List (SectionKind ⊕ Int) :=
  l.filterMap skeletonOf

/-- Number of kernel enqueues in a trace. -/
def enqCount (l : List TimedEvent) : Nat :=
  l.count TimedEvent.enq

/-- The `verify_results` calls of a trace paired with the number of kernel
enqueues that precede each call. -/
def verifyChecks : List TimedEvent → Nat → List (Int × Nat)
  | [], _ => []
  | TimedEvent.enq :: rest, n => verifyChecks rest (n + 1)
  | TimedEvent.verifyCall k :: rest, n => (k, n) :: verifyChecks rest n
  | _ :: rest, n => verifyChecks rest n

/-- The data flow of `main` in timed.rs: the initial buffer (filled by
`with_vec_scrambled` with the values `init`), the zero result buffer, the
first enqueue reading from `buffer_init`, the re-targeted further
enqueues, the buffer reads, and the three enqueue-then-read loops; the
value is the list of arguments (initial buffer contents, result buffer
host contents, `iters`) of the four `verify_results` calls in order. -/
def timedMain (init : Nat → ℚ) : List ((Nat → ℚ) × (Nat → ℚ) × Int) :=
  let buffer_init : OclBuffer := { dev := init, host := init }
  let b1 : OclBuffer := { bufferZero with dev := kernelAdd buffer_init.dev SCALAR bufferZero.dev }
  let b2 := (enqueueSelf SCALAR)^[(KERNEL_RUN_ITERS - 1).toNat] b1
  let b3 := fill_vec^[BUFFER_READ_ITERS.toNat] b2
  let c1 := (buffer_init.host, b3.host, KERNEL_RUN_ITERS)
  let b4 := (fun b => fill_vec (enqueueSelf SCALAR b))^[KERNEL_AND_BUFFER_ITERS.toNat] b3
  let c2 := (buffer_init.host, b4.host, KERNEL_AND_BUFFER_ITERS + KERNEL_RUN_ITERS)
  let b5 := (fun b => fill_vec (enqueueSelf SCALAR b))^[KERNEL_AND_BUFFER_ITERS.toNat] b4
  let c3 := (buffer_init.host, b5.host, KERNEL_AND_BUFFER_ITERS + KERNEL_AND_BUFFER_ITERS + KERNEL_RUN_ITERS)
  let b6 := (fun b => fill_vec (enqueueSelf SCALAR b))^[KERNEL_AND_BUFFER_ITERS.toNat] b5
  let c4 := (buffer_init.host, b6.host,
    KERNEL_AND_BUFFER_ITERS + KERNEL_AND_BUFFER_ITERS + KERNEL_AND_BUFFER_ITERS + KERNEL_RUN_ITERS)
  [c1, c2, c3, c4]

/-- The expected contents of the result buffer after the enqueues
summing to coefficient `c`: `init[i] + c * SCALAR` on the work
dimensions and the initial zero elsewhere.  Used to state what the
`verify_results` calls of `main` receive. -/
def hostAfter (init : Nat → ℚ) (c : ℚ) : Nat → ℚ :=
  fun i => if i < DATASET_SIZE then init i + c * SCALAR else 0

/-- The decimal digits (most significant first) printed for the
milliseconds field by the `{:03}` format of `print_elapsed`: values up to
`999` are zero-padded to exactly three digits, larger values print all
their digits. -/
def fmtPad3 (ms : Nat) : List Nat :=
  if ms < 1000 then [ms / 100, ms / 10 % 10, ms % 10]
  else (Nat.digits 10 ms).reverse

/-- `print_elapsed` of timed.rs, reduced to its numeric content: from the
elapsed duration (whole seconds plus sub-second nanoseconds) it prints the
seconds and the zero-padded value `elapsed_ms = subsec_nanos / 1000000`. -/
def print_elapsed (secs subsec_nanos : Nat) : Nat × List Nat :=
  let elapsed_ms := subsec_nanos / 1000000
  (secs, fmtPad3 elapsed_ms)

/-- The value denoted by a three-digit list. -/
def digitsVal3 : List Nat → Nat
  | [a, b, c] => a * 100 + b * 10 + c
  | _ => 0

end Timed

/-- One step of one of the two straight-line example programs: an
infallible library call or local operation, an external-library call whose
`Result` is immediately `unwrap`-ped (aborting the process on failure), or
the `assert!`-based tolerance check of `verify_results`. -/
inductive Step where
  | plainOp
  | unwrapOp
  | assertOp
deriving DecidableEq

/-- Truth of a step being an unwrapped fallible call. -/
def isUnwrap : Step → Bool
  | Step.unwrapOp => true
  | _ => false

/-- Number of unwrapped fallible calls in a step list. -/
def unwrapCount (l : List Step) : Nat :=
  l.countP isUnwrap

/-- Execution of a straight-line step sequence against an oracle that
answers, for each successive fallible call, whether the external library
succeeds: an `unwrap` of a failed call aborts the process at that call
index, and nothing after the abort runs. -/
def runSteps : List Step → (Nat → Bool) → Nat → Except Nat Nat
  | [], _, n => Except.ok n
  | Step.plainOp :: rest, o, n => runSteps rest o n
  | Step.assertOp :: rest, o, n => runSteps rest o n
  | Step.unwrapOp :: rest, o, n =>
    if o n = true then runSteps rest o (n + 1) else Except.error n

/-- The step sequence of `main` in timed.rs, in source order.  Modelled
from the spec: the library called by the examples is not under src/, so a
call counts as fallible exactly when the example source unwraps its
result, matching the spec statement that all error handling is unwrapping
of external-library results plus the single assert-based check. -/
def timedSteps : List Step :=
  [Step.plainOp,
   Step.unwrapOp,
   Step.plainOp, Step.plainOp,
   Step.unwrapOp,
   Step.plainOp,
   Step.unwrapOp] ++
  List.replicate (Timed.KERNEL_RUN_ITERS - 1).toNat Step.plainOp ++
  [Step.plainOp, Step.plainOp] ++
  List.replicate Timed.BUFFER_READ_ITERS.toNat Step.plainOp ++
  [Step.plainOp, Step.assertOp] ++
  (List.replicate Timed.KERNEL_AND_BUFFER_ITERS.toNat [Step.plainOp, Step.plainOp]).flatten ++
  [Step.plainOp, Step.assertOp] ++
  (List.replicate Timed.KERNEL_AND_BUFFER_ITERS.toNat [Step.plainOp, Step.unwrapOp]).flatten ++
  [Step.plainOp, Step.assertOp] ++
  (List.replicate Timed.KERNEL_AND_BUFFER_ITERS.toNat [Step.plainOp, Step.unwrapOp]).flatten ++
  [Step.plainOp, Step.assertOp]

namespace Info

/-- Constant `PRINT_DETAILED` of info.rs. -/
def PRINT_DETAILED : Bool := true

/-- Constant `PRINT_DETAILED_DEVICE` of info.rs. -/
def PRINT_DETAILED_DEVICE : Bool := false

/-- Constant `PRINT_DETAILED_PROGRAM` of info.rs. -/
def PRINT_DETAILED_PROGRAM : Bool := false

/-- An action performed by `main` in info.rs: object creations, the one
kernel enqueue per device, and the info-printing calls. -/
inductive InfoAction where
  | createContext
  | printPlatform
  | createQueue
  | createBuffer
  | createImage
  | createSampler
  | createProgram
  | createKernel
  | enqKernel
  | printDevice
  | printContext
  | printQueue
  | printBuffer
  | printImage
  | printSampler
  | printProgram
  | printKernel
  | printEventList
  | printEvent
deriving DecidableEq

/-- The per-device actions of the device loop of info.rs (lines 50-74),
in source order: the object creations, the kernel enqueue and the
device-info print that every pass performs. -/
def deviceBaseActions : List InfoAction :=
  [InfoAction.createQueue, InfoAction.createBuffer, InfoAction.createImage,
   InfoAction.createSampler, InfoAction.createProgram, InfoAction.createKernel,
   InfoAction.enqKernel, InfoAction.printDevice]

/-- The once-only detailed prints of info.rs (lines 77-87), in source
order. -/
def deviceDetailActions : List InfoAction :=
  [InfoAction.printContext, InfoAction.printQueue, InfoAction.printBuffer,
   InfoAction.printImage, InfoAction.printSampler, InfoAction.printProgram,
   InfoAction.printKernel, InfoAction.printEventList, InfoAction.printEvent]

/-- The per-platform actions before the device loop of info.rs: the
context build and the platform-info print. -/
def platformHeaderActions : List InfoAction :=
  [InfoAction.createContext, InfoAction.printPlatform]

/-- Actions of one pass of the device loop of info.rs (lines 50-88), for
device index `d_idx` among `numDevices` devices: the per-device actions,
then the once-only detailed prints exactly when this is the last device
of the last platform. -/
def deviceIter (lastPlatform : Bool) (numDevices d_idx : Nat) : List InfoAction :=
  deviceBaseActions ++
    (if d_idx = numDevices - 1 ∧ lastPlatform then deviceDetailActions else [])

/-- Actions of one pass of the platform loop of info.rs (lines 36-89),
for a platform with `numDevices` devices: one context creation, the
platform-info print, then the device loop. -/
def platformIter (lastPlatform : Bool) (numDevices : Nat) : List InfoAction :=
  platformHeaderActions ++
    ((List.range numDevices).map (deviceIter lastPlatform numDevices)).flatten

/-- The platform loop of info.rs over the device counts of the available
platforms; the index test `p_idx == platforms.len() - 1` holds exactly for
the final platform. -/
def platformsLoop : List Nat → List InfoAction
  | [] => []
  | [n] => platformIter true n
  | n :: n2 :: rest => platformIter false n ++ platformsLoop (n2 :: rest)

/-- `main` of info.rs, as the list of actions it performs, given the
number of devices of each available platform. -/
def infoMain (platforms : List Nat) : List InfoAction :=
  platformsLoop platforms

/-- Whether the once-only detailed prints happen: they require a last
platform with at least one device. -/
def lastDetail (platforms : List Nat) : Nat :=
  match platforms.getLast? with
  | none => 0
  | some n => if 0 < n then 1 else 0

/-- The fields of a `Device` that info.rs reads: its `Display` form and
the `name()` and `vendor()` info strings. -/
structure DeviceR where
  name : String
  vendor : String
  display : String

/-- The fields of a `Program` that info.rs reads: its `Display` form and
the four program-info strings of the summary line. -/
structure ProgramR where
  kernelNames : String
  numDevices : String
  referenceCount : String
  context : String
  display : String

/-- A console line of info.rs: an indentation write, the full `Display`
form of a device or program, or one of the two summary lines. -/
inductive InfoLine where
  | tabOut (n : Nat)
  | deviceFull (display : String)
  | deviceSummary (name vendor : String)
  | programFull (display : String)
  | programSummary (kernelNames numDevices referenceCount context : String)
deriving DecidableEq

/-- `print_device_info` of info.rs: the full `Display` form when
`PRINT_DETAILED_DEVICE` is set, otherwise an optional indent (when
`PRINT_DETAILED` is unset) and the one-line Name/Vendor summary. -/
def print_device_info (pdd pd : Bool) (d : DeviceR) : List InfoLine :=
  if pdd then [InfoLine.deviceFull d.display]
  else (if !pd then [InfoLine.tabOut 1] else []) ++
    [InfoLine.deviceSummary d.name d.vendor]

/-- `print_program_info` of info.rs: the full `Display` form when
`PRINT_DETAILED_PROGRAM` is set, otherwise an optional indent (when
`PRINT_DETAILED` is unset) and the one-line summary of the four
program-info fields KernelNames, NumDevices, ReferenceCount and
Context. -/
def print_program_info (pdp pd : Bool) (p : ProgramR) : List InfoLine :=
  if pdp then [InfoLine.programFull p.display]
  else (if !pd then [InfoLine.tabOut 2] else []) ++
    [InfoLine.programSummary p.kernelNames p.numDevices p.referenceCount p.context]

/-- Steps of one pass of the device loop of info.rs, in source order:
queue creation (unwrapped), buffer creation, image build (unwrapped),
sampler (unwrapped), program build (unwrapped), kernel creation
(unwrapped), event list creation, command enqueue (unwrapped), last event
clone (unwrapped), the wait, and the prints. -/
def infoDeviceSteps : List Step :=
  [Step.unwrapOp, Step.plainOp, Step.unwrapOp, Step.unwrapOp, Step.unwrapOp,
   Step.unwrapOp, Step.plainOp, Step.unwrapOp, Step.unwrapOp, Step.plainOp,
   Step.plainOp]

/-- The step sequence of `main` in info.rs given the device counts of the
platforms: per platform one context build (unwrapped) and the platform
print, then the device loop.  Modelled from the spec: the library called
by the examples is not under src/, so a call counts as fallible exactly
when the example source unwraps its result. -/
def infoSteps (platforms : List Nat) : List Step :=
  (platforms.map (fun n =>
    [Step.unwrapOp, Step.plainOp] ++ (List.replicate n infoDeviceSteps).flatten)).flatten

end Info

/-- Observable behaviour of one run of the timed.rs binary: the outcome
of its unwrapped library calls under the oracle, and the arguments of its
verification calls; the command-line arguments and the process environment
are taken as parameters of the run. -/
def timedBehaviour (init : Nat → ℚ) (o : Nat → Bool)
    (_args : List String) (_env : String → Option String) :
    Except Nat Nat × List ((Nat → ℚ) × (Nat → ℚ) × Int) :=
  (runSteps timedSteps o 0, Timed.timedMain init)

/-- Observable behaviour of one run of the info.rs binary: the outcome of
its unwrapped library calls under the oracle, and the actions it performs;
the command-line arguments and the process environment are taken as
parameters of the run. -/
def infoBehaviour (platforms : List Nat) (o : Nat → Bool)
    (_args : List String) (_env : String → Option String) :
    Except Nat Nat × List Info.InfoAction :=
  (runSteps (Info.infoSteps platforms) o 0, Info.infoMain platforms)

end Ocl

namespace Ocl

namespace Timed

lemma enqueueSelf_host (s : ℚ) (b : OclBuffer) : (enqueueSelf s b).host = b.host := rfl

lemma enqueueSelf_iterate_host (s : ℚ) (n : Nat) (b : OclBuffer) :
    ((enqueueSelf s)^[n] b).host = b.host := by
  induction n generalizing b with
  | zero => rfl
  | succ n ih =>
    rw [Function.iterate_succ_apply', enqueueSelf_host, ih]

lemma enqueueSelf_iterate_dev (s : ℚ) (n : Nat) (b : OclBuffer) (i : Nat) :
    ((enqueueSelf s)^[n] b).dev i =
      if i < DATASET_SIZE then b.dev i + (n : ℚ) * s else b.dev i := by
  induction n generalizing b with
  | zero => simp
  | succ n ih =>
    rw [Function.iterate_succ_apply']
    show kernelAdd ((enqueueSelf s)^[n] b).dev s ((enqueueSelf s)^[n] b).dev i = _
    rw [kernelAdd]
    by_cases hi : i < DATASET_SIZE
    · rw [if_pos hi, if_pos hi, ih, if_pos hi]
      push_cast
      ring
    · rw [if_neg hi, if_neg hi, ih, if_neg hi]

lemma fill_vec_iterate (n : Nat) (hn : 0 < n) (b : OclBuffer) :
    fill_vec^[n] b = { dev := b.dev, host := b.dev } := by
  induction n with
  | zero => omega
  | succ n ih =>
    rcases Nat.eq_zero_or_pos n with h0 | hpos
    · subst h0
      rfl
    · rw [Function.iterate_succ_apply', ih hpos]
      rfl

lemma kbStep_iterate_dev (s : ℚ) (n : Nat) (b : OclBuffer) (i : Nat) :
    ((fun x => fill_vec (enqueueSelf s x))^[n] b).dev i =
      if i < DATASET_SIZE then b.dev i + (n : ℚ) * s else b.dev i := by
  induction n generalizing b with
  | zero => simp
  | succ n ih =>
    rw [Function.iterate_succ_apply']
    show kernelAdd _ s _ i = _
    rw [kernelAdd]
    by_cases hi : i < DATASET_SIZE
    · rw [if_pos hi, if_pos hi]
      show ((fun x => fill_vec (enqueueSelf s x))^[n] b).dev i + s = _
      rw [ih, if_pos hi]
      push_cast
      ring
    · rw [if_neg hi, if_neg hi]
      show ((fun x => fill_vec (enqueueSelf s x))^[n] b).dev i = _
      rw [ih, if_neg hi]

lemma kbStep_iterate_host (s : ℚ) (n : Nat) (hn : 0 < n) (b : OclBuffer) :
    ((fun x => fill_vec (enqueueSelf s x))^[n] b).host =
      ((fun x => fill_vec (enqueueSelf s x))^[n] b).dev := by
  rcases Nat.exists_eq_add_of_lt hn with ⟨m, hm⟩
  subst hm
  rw [zero_add, Function.iterate_succ_apply']
  rfl

lemma resultAfterEnqueues_dev (init : Nat → ℚ) (s : ℚ) (k i : Nat)
    (hk : 1 ≤ k) (hi : i < DATASET_SIZE) :
    (resultAfterEnqueues init s k).dev i = init i + (k : ℚ) * s := by
  rcases Nat.exists_eq_add_of_lt hk with ⟨j, hj⟩
  subst hj
  rw [zero_add] at *
  show ((enqueueSelf s)^[j] _).dev i = _
  rw [enqueueSelf_iterate_dev, if_pos hi]
  show kernelAdd init s bufferZero.dev i + (j : ℚ) * s = _
  rw [kernelAdd, if_pos hi]
  push_cast
  ring

end Timed

end Ocl

namespace Ocl

namespace Timed

lemma verifyLoop_success (bi br : Nat → ℚ) (it : Int) (rem : Nat) :
    ∀ idx : Nat, (∀ j, j < rem → okPred bi br it (idx + j)) →
      verifyLoop bi br it idx rem =
        Except.ok ((((List.range rem).map (fun j => idx + j)).filter printSampleCond).map
          (fun i => VerifyLine.sample i (bi i) (bi i + (it : ℚ) * SCALAR) (br i))) := by
  induction rem with
  | zero =>
    intro idx _
    simp [verifyLoop]
  | succ rem ih =>
    intro idx H
    have h0 : okPred bi br it idx := by simpa using H 0 (Nat.succ_pos rem)
    have hs : ∀ j, j < rem → okPred bi br it (idx + 1 + j) := by
      intro j hj
      have := H (j + 1) (by omega)
      rwa [show idx + (j + 1) = idx + 1 + j by omega] at this
    rw [verifyLoop,
      if_pos (show |bi idx + (it : ℚ) * SCALAR - br idx| < margin_of_error from h0),
      ih (idx + 1) hs]
    rw [List.range_succ_eq_map, List.map_cons, List.map_map]
    rw [List.map_congr_left (f := (fun j => idx + j) ∘ Nat.succ)
      (g := fun j => idx + 1 + j) (fun a _ => by simp [Function.comp]; omega)]
    rw [List.filter_cons]
    cases hP : printSampleCond idx with
    | true => simp [hP]
    | false => simp [hP]

lemma verifyLoop_ok_forall (bi br : Nat → ℚ) (it : Int) (rem : Nat) :
    ∀ idx : Nat, isOkE (verifyLoop bi br it idx rem) = true →
      ∀ j, j < rem → okPred bi br it (idx + j) := by
  induction rem with
  | zero =>
    intro idx _ j hj
    omega
  | succ rem ih =>
    intro idx hOk j hj
    rw [verifyLoop] at hOk
    by_cases h : |bi idx + (it : ℚ) * SCALAR - br idx| < margin_of_error
    · rw [if_pos h] at hOk
      cases hE : verifyLoop bi br it (idx + 1) rem with
      | error e =>
        rw [hE] at hOk
        simp [isOkE] at hOk
      | ok rest =>
        match j, hj with
        | 0, _ => simpa [okPred] using h
        | j + 1, hj =>
          have : okPred bi br it (idx + 1 + j) := by
            apply ih (idx + 1) _ j (by omega)
            rw [hE]
            rfl
          rwa [show idx + 1 + j = idx + (j + 1) by omega] at this
    · rw [if_neg h] at hOk
      simp [isOkE] at hOk

lemma verifyLoop_error_spec (bi br : Nat → ℚ) (it : Int) (rem : Nat) :
    ∀ (idx : Nat) (e : VerifyLine), verifyLoop bi br it idx rem = Except.error e →
      ∃ j, j < rem ∧ ¬ okPred bi br it (idx + j) ∧
        e = VerifyLine.invalid (idx + j) (bi (idx + j))
          (bi (idx + j) + (it : ℚ) * SCALAR) margin_of_error (br (idx + j)) := by
  induction rem with
  | zero =>
    intro idx e hE
    simp [verifyLoop] at hE
  | succ rem ih =>
    intro idx e hE
    rw [verifyLoop] at hE
    by_cases h : |bi idx + (it : ℚ) * SCALAR - br idx| < margin_of_error
    · rw [if_pos h] at hE
      cases hrec : verifyLoop bi br it (idx + 1) rem with
      | error e2 =>
        rw [hrec] at hE
        have he : e = e2 := by
          simpa using hE.symm
        obtain ⟨j, hj, hfail, hinv⟩ := ih (idx + 1) e2 hrec
        refine ⟨j + 1, by omega, ?_, ?_⟩
        · rwa [show idx + (j + 1) = idx + 1 + j by omega]
        · rw [he, hinv, show idx + 1 + j = idx + (j + 1) by omega]
      | ok rest =>
        rw [hrec] at hE
        by_cases hP : printSampleCond idx <;> simp [hP] at hE
    · rw [if_neg h] at hE
      refine ⟨0, Nat.succ_pos rem, by simpa [okPred] using h, ?_⟩
      simpa using hE.symm

end Timed

end Ocl

namespace Ocl

namespace Timed

lemma map_zero_add_range (n : Nat) :
    (List.range n).map (fun j => 0 + j) = List.range n := by
  simp

lemma except_map_ok {ε α β : Type _} (f : α → β) (x : α) :
    (Except.ok x : Except ε α).map f = Except.ok (f x) := rfl

lemma except_map_error {ε α β : Type _} (f : α → β) (e : ε) :
    (Except.error e : Except ε α).map f = Except.error e := rfl

lemma verify_results_success (bi br : Nat → ℚ) (it : Int)
    (H : ∀ idx, idx < DATASET_SIZE → okPred bi br it idx) :
    verify_results bi br it =
      Except.ok (((List.range DATASET_SIZE).filter printSampleCond).map
        (fun i => VerifyLine.sample i (bi i) (bi i + (it : ℚ) * SCALAR) (br i)),
        allCorrectMsg) := by
  rw [verify_results,
    verifyLoop_success bi br it DATASET_SIZE 0 (fun j hj => by simpa using H j hj),
    except_map_ok, map_zero_add_range]

lemma verify_results_isOk_iff (bi br : Nat → ℚ) (it : Int) :
    isOkE (verify_results bi br it) = true ↔
      ∀ idx, idx < DATASET_SIZE → okPred bi br it idx := by
  constructor
  · intro h idx hidx
    rw [verify_results] at h
    cases hL : verifyLoop bi br it 0 DATASET_SIZE with
    | error e =>
      rw [hL, except_map_error] at h
      simp [isOkE] at h
    | ok samples =>
      have hOk : isOkE (verifyLoop bi br it 0 DATASET_SIZE) = true := by
        rw [hL]
        rfl
      simpa using verifyLoop_ok_forall bi br it DATASET_SIZE 0 hOk idx hidx
  · intro H
    rw [verify_results_success bi br it H]
    rfl

lemma verify_results_error_spec (bi br : Nat → ℚ) (it : Int) (e : VerifyLine)
    (hE : verify_results bi br it = Except.error e) :
    ∃ idx, idx < DATASET_SIZE ∧ ¬ okPred bi br it idx ∧
      e = VerifyLine.invalid idx (bi idx) (bi idx + (it : ℚ) * SCALAR)
        margin_of_error (br idx) := by
  rw [verify_results] at hE
  cases hL : verifyLoop bi br it 0 DATASET_SIZE with
  | ok samples =>
    rw [hL, except_map_ok] at hE
    simp at hE
  | error e2 =>
    rw [hL, except_map_error] at hE
    have he : e = e2 := by simpa using hE.symm
    obtain ⟨j, hj, hfail, hinv⟩ := verifyLoop_error_spec bi br it DATASET_SIZE 0 e2 hL
    exact ⟨j, hj, by simpa using hfail, by rw [he]; simpa using hinv⟩

lemma range_mul_filter_mod (m : Nat) (hm : 0 < m) :
    ∀ k : Nat, (List.range (k * m)).filter (fun i => i % m == 0) =
      (List.range k).map (fun j => j * m) := by
  intro k
  induction k with
  | zero => simp
  | succ k ih =>
    rw [Nat.succ_mul, List.range_add, List.filter_append, ih, List.filter_map]
    have h1 : ((fun i => i % m == 0) ∘ (fun j => k * m + j)) = fun j => j % m == 0 := by
      funext j
      show ((k * m + j) % m == 0) = ((j % m) == 0)
      rw [Nat.mul_comm k m, Nat.mul_add_mod]
    rw [h1]
    have h2 : (List.range m).filter (fun j => j % m == 0) =
        (List.range m).filter (fun j => j == 0) := by
      apply List.filter_congr
      intro a ha
      rw [List.mem_range] at ha
      simp [Nat.mod_eq_of_lt ha]
    rw [h2]
    obtain ⟨m2, rfl⟩ : ∃ m2, m = m2 + 1 := ⟨m - 1, by omega⟩
    rw [List.range_succ_eq_map, List.filter_cons]
    have h3 : ((List.range m2).map Nat.succ).filter (fun j => j == 0) = [] := by
      rw [List.filter_map]
      have h4 : ((fun j : Nat => j == 0) ∘ Nat.succ) = fun _ => false := by
        funext j
        simp [Function.comp]
      rw [h4, List.filter_false, List.map_nil]
    simp only [h3]
    rw [List.range_succ, List.map_append]
    simp

end Timed

end Ocl

namespace Ocl

namespace Timed

/-- Claim C1: for every element index i in 0..DATASET_SIZE, after k total
kernel-add enqueues with scalar s have completed (the cumulative count
passed to verify_results), the result buffer holds exactly
buffer_init[i] + k*s, hence satisfies the check within the absolute
tolerance 0.1; and verify_results checks exactly the predicate
|correct - result[i]| < 0.1 with correct = init[i] + k*s for every
index.  Floats are modelled as exact rationals. -/
theorem timed_add_accumulation_and_verify
    (init bi br : Nat → ℚ) (s : ℚ) (k i : Nat) (it : Int)
    (hk : 1 ≤ k) (hi : i < DATASET_SIZE) :
    (resultAfterEnqueues init s k).dev i = init i + (k : ℚ) * s ∧
    |(init i + (k : ℚ) * s) - (resultAfterEnqueues init s k).dev i| < margin_of_error ∧
    (isOkE (verify_results bi br it) = true ↔
      ∀ idx, idx < DATASET_SIZE → okPred bi br it idx) ∧
    isOkE (verify_results init
      (fill_vec (resultAfterEnqueues init SCALAR k)).host (k : Int)) = true := by
  refine ⟨resultAfterEnqueues_dev init s k i hk hi, ?_, verify_results_isOk_iff bi br it, ?_⟩
  · rw [resultAfterEnqueues_dev init s k i hk hi, sub_self, abs_zero, margin_of_error]
    norm_num
  · rw [verify_results_isOk_iff]
    intro idx hidx
    show |init idx + ((k : Int) : ℚ) * SCALAR -
      (fill_vec (resultAfterEnqueues init SCALAR k)).host idx| < margin_of_error
    have hdev : (fill_vec (resultAfterEnqueues init SCALAR k)).host idx =
        init idx + (k : ℚ) * SCALAR :=
      resultAfterEnqueues_dev init SCALAR k idx hk hidx
    rw [hdev]
    push_cast
    rw [sub_self, abs_zero, margin_of_error]
    norm_num

theorem timed_add_accumulation_and_verify_witness :
    1 ≤ 1 ∧ 0 < DATASET_SIZE ∧
      isOkE (verify_results (fun _ => (0 : ℚ))
        (fill_vec (resultAfterEnqueues (fun _ => (0 : ℚ)) SCALAR 1)).host
        ((1 : Nat) : Int)) = true :=
  ⟨le_refl 1, by decide,
    (timed_add_accumulation_and_verify (fun _ => 0) (fun _ => 0) (fun _ => 0)
      1 1 0 0 (le_refl 1) (by decide)).2.2.2⟩

/-- Claim C4: verify_results halts execution with a diagnostic line that
lists the index, the initial value, the expected value, the margin and
the actual value if and only if some computed element falls outside the
0.1 tolerance; when every element is within tolerance the run continues
and emits the closing message "All result values are correct.". -/
theorem verify_halts_iff_out_of_tolerance (bi br : Nat → ℚ) (it : Int) :
    ((∃ e, verify_results bi br it = Except.error e) ↔
      ∃ idx, idx < DATASET_SIZE ∧ ¬ okPred bi br it idx) ∧
    (∀ e, verify_results bi br it = Except.error e →
      ∃ idx, idx < DATASET_SIZE ∧ ¬ okPred bi br it idx ∧
        e = VerifyLine.invalid idx (bi idx) (bi idx + (it : ℚ) * SCALAR)
          margin_of_error (br idx)) ∧
    ((∀ idx, idx < DATASET_SIZE → okPred bi br it idx) →
      ∃ samples, verify_results bi br it = Except.ok (samples, allCorrectMsg)) := by
  refine ⟨⟨?_, ?_⟩, ?_, ?_⟩
  · rintro ⟨e, hE⟩
    obtain ⟨idx, hidx, hfail, _⟩ := verify_results_error_spec bi br it e hE
    exact ⟨idx, hidx, hfail⟩
  · rintro ⟨idx, hidx, hfail⟩
    cases hV : verify_results bi br it with
    | error e => exact ⟨e, rfl⟩
    | ok p =>
      have hOk : isOkE (verify_results bi br it) = true := by
        rw [hV]
        rfl
      exact absurd ((verify_results_isOk_iff bi br it).mp hOk idx hidx) hfail
  · intro e hE
    exact verify_results_error_spec bi br it e hE
  · intro H
    exact ⟨_, verify_results_success bi br it H⟩

theorem verify_halts_iff_out_of_tolerance_witness :
    (∃ e, verify_results (fun _ => (0 : ℚ)) (fun _ => (1 : ℚ)) 0 = Except.error e) ∧
    (∃ idx, idx < DATASET_SIZE ∧ ¬ okPred (fun _ => (0 : ℚ)) (fun _ => (1 : ℚ)) 0 idx ∧
      VerifyLine.invalid 0 0 0 margin_of_error 1 =
        VerifyLine.invalid idx ((fun _ => (0 : ℚ)) idx)
          ((fun _ => (0 : ℚ)) idx + ((0 : Int) : ℚ) * SCALAR) margin_of_error
          ((fun _ => (1 : ℚ)) idx)) ∧
    (∃ samples, verify_results (fun _ => (0 : ℚ)) (fun _ => (0 : ℚ)) 0 =
      Except.ok (samples, allCorrectMsg)) := by
  have hE : verify_results (fun _ => (0 : ℚ)) (fun _ => (1 : ℚ)) 0 =
      Except.error (VerifyLine.invalid 0 0 0 margin_of_error 1) := by
    rw [verify_results]
    have hD : DATASET_SIZE = 999999 + 1 := by decide
    have h1 : verifyLoop (fun _ => (0 : ℚ)) (fun _ => (1 : ℚ)) 0 0 DATASET_SIZE =
        Except.error (VerifyLine.invalid 0 0 0 margin_of_error 1) := by
      rw [hD, verifyLoop]
      rw [if_neg (by norm_num [SCALAR, margin_of_error])]
      norm_num [SCALAR]
    rw [h1, except_map_error]
  refine ⟨⟨_, hE⟩, ?_, ?_⟩
  · exact (verify_halts_iff_out_of_tolerance (fun _ => 0) (fun _ => 1) 0).2.1
      (VerifyLine.invalid 0 0 0 margin_of_error 1) hE
  · exact (verify_halts_iff_out_of_tolerance (fun _ => 0) (fun _ => 0) 0).2.2
      (fun idx _ => by norm_num [okPred, SCALAR, margin_of_error])

/-- Claim C9: with the constants of timed.rs, PRINT_SOME_RESULTS is set
and RESULTS_TO_PRINT is positive (so the modulus DATASET_SIZE /
RESULTS_TO_PRINT = 200000 involves no division by zero), and on every
in-tolerance call verify_results prints exactly RESULTS_TO_PRINT sample
lines, at the indices 0, 200000, 400000, 600000, 800000 — the multiples
of DATASET_SIZE / RESULTS_TO_PRINT below DATASET_SIZE. -/
theorem verify_sample_print_indices :
    0 < RESULTS_TO_PRINT ∧ PRINT_SOME_RESULTS = true ∧
    DATASET_SIZE / RESULTS_TO_PRINT = 200000 ∧
    ∀ bi br : Nat → ℚ, ∀ it : Int,
      (∀ idx, idx < DATASET_SIZE → okPred bi br it idx) →
      ∃ samples, verify_results bi br it = Except.ok (samples, allCorrectMsg) ∧
        samples.map sampleIdx = [0, 200000, 400000, 600000, 800000] ∧
        samples.length = RESULTS_TO_PRINT := by
  have hc : printSampleCond = fun idx => idx % 200000 == 0 := by
    funext idx
    show (PRINT_SOME_RESULTS && (idx % (DATASET_SIZE / RESULTS_TO_PRINT) == 0)) = _
    rw [show DATASET_SIZE / RESULTS_TO_PRINT = 200000 from by decide]
    show (true && (idx % 200000 == 0)) = (idx % 200000 == 0)
    rw [Bool.true_and]
  have hfilter : (List.range DATASET_SIZE).filter printSampleCond =
      [0, 200000, 400000, 600000, 800000] := by
    rw [hc, show DATASET_SIZE = 5 * 200000 from by decide,
      range_mul_filter_mod 200000 (by norm_num) 5]
    decide
  refine ⟨by decide, rfl, by decide, ?_⟩
  intro bi br it H
  refine ⟨_, verify_results_success bi br it H, ?_, ?_⟩
  · rw [List.map_map]
    have hcomp : (sampleIdx ∘ fun i =>
        VerifyLine.sample i (bi i) (bi i + (it : ℚ) * SCALAR) (br i)) = fun i => i := by
      funext i
      rfl
    rw [hcomp, hfilter]
    rfl
  · rw [List.length_map, hfilter]
    rfl

theorem verify_sample_print_indices_witness :
    (∀ idx, idx < DATASET_SIZE → okPred (fun _ => (0 : ℚ)) (fun _ => (0 : ℚ)) 0 idx) ∧
    ∃ samples, verify_results (fun _ => (0 : ℚ)) (fun _ => (0 : ℚ)) 0 =
        Except.ok (samples, allCorrectMsg) ∧
      samples.map sampleIdx = [0, 200000, 400000, 600000, 800000] ∧
      samples.length = RESULTS_TO_PRINT := by
  have H : ∀ idx, idx < DATASET_SIZE → okPred (fun _ => (0 : ℚ)) (fun _ => (0 : ℚ)) 0 idx :=
    fun idx _ => by norm_num [okPred, SCALAR, margin_of_error]
  exact ⟨H, verify_sample_print_indices.2.2.2 (fun _ => 0) (fun _ => 0) 0 H⟩

end Timed

end Ocl

namespace Ocl

lemma count_flatten_replicate {α : Type _} [BEq α] (m : Nat) (l : List α) (a : α) :
    ((List.replicate m l).flatten).count a = m * l.count a := by
  induction m with
  | zero => simp
  | succ m ih =>
    rw [List.replicate_succ, List.flatten_cons, List.count_append, ih, Nat.succ_mul]
    omega

lemma filterMap_replicate_none {α β : Type _} (f : α → Option β) (a : α) (h : f a = none) :
    ∀ m : Nat, (List.replicate m a).filterMap f = [] := by
  intro m
  induction m with
  | zero => rfl
  | succ m ih =>
    rw [List.replicate_succ, List.filterMap_cons, h, ih]

lemma filterMap_flatten_replicate_none {α β : Type _} (f : α → Option β) (l : List α)
    (h : l.filterMap f = []) :
    ∀ m : Nat, ((List.replicate m l).flatten).filterMap f = [] := by
  intro m
  induction m with
  | zero => rfl
  | succ m ih =>
    rw [List.replicate_succ, List.flatten_cons, List.filterMap_append, h, ih]
    rfl

namespace Timed

lemma enqCount_cons_enq (t : List TimedEvent) :
    enqCount (TimedEvent.enq :: t) = enqCount t + 1 := by
  rw [enqCount, enqCount, List.count_cons_self]

lemma enqCount_cons_ne (e : TimedEvent) (t : List TimedEvent) (h : TimedEvent.enq ≠ e) :
    enqCount (e :: t) = enqCount t := by
  rw [enqCount, enqCount, List.count_cons_of_ne h]

lemma verifyChecks_append (l1 : List TimedEvent) :
    ∀ (l2 : List TimedEvent) (n : Nat),
      verifyChecks (l1 ++ l2) n = verifyChecks l1 n ++ verifyChecks l2 (n + enqCount l1) := by
  induction l1 with
  | nil =>
    intro l2 n
    simp [verifyChecks, enqCount]
  | cons e t ih =>
    intro l2 n
    cases e with
    | enq =>
      have h1 : verifyChecks ((TimedEvent.enq :: t) ++ l2) n = verifyChecks (t ++ l2) (n + 1) := rfl
      have h2 : verifyChecks (TimedEvent.enq :: t) n = verifyChecks t (n + 1) := rfl
      rw [h1, ih, h2, enqCount_cons_enq,
        show n + (enqCount t + 1) = n + 1 + enqCount t from by omega]
    | startTimer k =>
      have h1 : verifyChecks ((TimedEvent.startTimer k :: t) ++ l2) n =
        verifyChecks (t ++ l2) n := rfl
      have h2 : verifyChecks (TimedEvent.startTimer k :: t) n = verifyChecks t n := rfl
      rw [h1, ih, h2, enqCount_cons_ne _ t (by nofun)]
    | printElapsedEv =>
      have h1 : verifyChecks ((TimedEvent.printElapsedEv :: t) ++ l2) n =
        verifyChecks (t ++ l2) n := rfl
      have h2 : verifyChecks (TimedEvent.printElapsedEv :: t) n = verifyChecks t n := rfl
      rw [h1, ih, h2, enqCount_cons_ne _ t (by nofun)]
    | fill =>
      have h1 : verifyChecks ((TimedEvent.fill :: t) ++ l2) n = verifyChecks (t ++ l2) n := rfl
      have h2 : verifyChecks (TimedEvent.fill :: t) n = verifyChecks t n := rfl
      rw [h1, ih, h2, enqCount_cons_ne _ t (by nofun)]
    | verifyCall k =>
      have h1 : verifyChecks ((TimedEvent.verifyCall k :: t) ++ l2) n =
        (k, n) :: verifyChecks (t ++ l2) n := rfl
      have h2 : verifyChecks (TimedEvent.verifyCall k :: t) n = (k, n) :: verifyChecks t n := rfl
      rw [h1, ih, h2, enqCount_cons_ne _ t (by nofun), List.cons_append]

lemma verifyChecks_eq_nil (l : List TimedEvent)
    (h : ∀ k : Int, TimedEvent.verifyCall k ∉ l) :
    ∀ n : Nat, verifyChecks l n = [] := by
  induction l with
  | nil => intro n; rfl
  | cons e t ih =>
    intro n
    cases e with
    | verifyCall k => exact absurd (List.mem_cons_self _ _) (fun hm => h k hm)
    | startTimer k =>
      simp only [verifyChecks]
      exact (ih (fun k2 hk2 => h k2 (List.mem_cons_of_mem _ hk2))) n
    | printElapsedEv =>
      simp only [verifyChecks]
      exact (ih (fun k2 hk2 => h k2 (List.mem_cons_of_mem _ hk2))) n
    | enq =>
      simp only [verifyChecks]
      exact (ih (fun k2 hk2 => h k2 (List.mem_cons_of_mem _ hk2))) (n + 1)
    | fill =>
      simp only [verifyChecks]
      exact (ih (fun k2 hk2 => h k2 (List.mem_cons_of_mem _ hk2))) n

end Timed

end Ocl

namespace Ocl

namespace Timed

lemma enqCount_kernelSectionTrace : enqCount kernelSectionTrace = 800 := by
  rw [kernelSectionTrace, enqCount, List.count_append, List.count_append,
    List.count_replicate_self]
  decide

lemma enqCount_bufferSectionTrace : enqCount bufferSectionTrace = 0 := by
  rw [bufferSectionTrace, enqCount, List.count_append, List.count_append,
    List.count_replicate]
  decide

lemma enqCount_kbSectionTrace (k : SectionKind) : enqCount (kbSectionTrace k) = 10000 := by
  rw [kbSectionTrace, enqCount, List.count_append, List.count_append,
    count_flatten_replicate]
  show List.count TimedEvent.enq [TimedEvent.startTimer k] +
    (KERNEL_AND_BUFFER_ITERS.toNat * _ + _) = 10000
  rw [List.count_cons_of_ne (by nofun), List.count_nil]
  decide

lemma verifyChecks_kernelSectionTrace (n : Nat) : verifyChecks kernelSectionTrace n = [] := by
  apply verifyChecks_eq_nil
  intro k hk
  rw [kernelSectionTrace] at hk
  simp at hk

lemma verifyChecks_bufferSectionTrace (n : Nat) : verifyChecks bufferSectionTrace n = [] := by
  apply verifyChecks_eq_nil
  intro k hk
  rw [bufferSectionTrace] at hk
  simp at hk

lemma verifyChecks_kbSectionTrace (k : SectionKind) (n : Nat) :
    verifyChecks (kbSectionTrace k) n = [] := by
  apply verifyChecks_eq_nil
  intro k2 hk
  rw [kbSectionTrace] at hk
  simp at hk
  obtain ⟨l, ⟨_, rfl⟩, hmem⟩ := hk
  simp at hmem

lemma verifyChecks_singleVC (k : Int) (n : Nat) :
    verifyChecks [TimedEvent.verifyCall k] n = [(k, n)] := rfl

lemma enqCount_singleVC (k : Int) : enqCount [TimedEvent.verifyCall k] = 0 := by
  rw [enqCount_cons_ne _ _ (by nofun), enqCount, List.count_nil]

lemma verifyChecks_mainTrace :
    verifyChecks mainTrace 0 = [(800, 800), (10800, 10800), (20800, 20800), (30800, 30800)] := by
  rw [mainTrace,
    verifyChecks_append kernelSectionTrace,
    verifyChecks_append bufferSectionTrace,
    verifyChecks_append [TimedEvent.verifyCall KERNEL_RUN_ITERS],
    verifyChecks_append (kbSectionTrace SectionKind.kernelBufferBlocking),
    verifyChecks_append [TimedEvent.verifyCall (KERNEL_AND_BUFFER_ITERS + KERNEL_RUN_ITERS)],
    verifyChecks_append (kbSectionTrace SectionKind.kernelBufferNonBlocking),
    verifyChecks_append
      [TimedEvent.verifyCall (KERNEL_AND_BUFFER_ITERS + KERNEL_AND_BUFFER_ITERS + KERNEL_RUN_ITERS)],
    verifyChecks_append (kbSectionTrace SectionKind.kernelBufferUnordered)]
  simp only [verifyChecks_kernelSectionTrace, verifyChecks_bufferSectionTrace,
    verifyChecks_kbSectionTrace, verifyChecks_singleVC, enqCount_kernelSectionTrace,
    enqCount_bufferSectionTrace, enqCount_kbSectionTrace, enqCount_singleVC,
    List.nil_append, List.append_nil, List.singleton_append]
  norm_num [KERNEL_RUN_ITERS, KERNEL_AND_BUFFER_ITERS]

end Timed

end Ocl

namespace Ocl

namespace Timed

lemma skeleton_append (l1 l2 : List TimedEvent) :
    skeleton (l1 ++ l2) = skeleton l1 ++ skeleton l2 := by
  rw [skeleton, skeleton, skeleton, List.filterMap_append]

lemma sectionStarts_append (l1 l2 : List TimedEvent) :
    sectionStarts (l1 ++ l2) = sectionStarts l1 ++ sectionStarts l2 := by
  rw [sectionStarts, sectionStarts, sectionStarts, List.filterMap_append]

lemma skeleton_kernelSectionTrace :
    skeleton kernelSectionTrace = [Sum.inl SectionKind.kernel] := by
  rw [kernelSectionTrace, skeleton, List.filterMap_append, List.filterMap_append,
    filterMap_replicate_none skeletonOf TimedEvent.enq rfl]
  decide

lemma skeleton_bufferSectionTrace :
    skeleton bufferSectionTrace = [Sum.inl SectionKind.buffer] := by
  rw [bufferSectionTrace, skeleton, List.filterMap_append, List.filterMap_append,
    filterMap_replicate_none skeletonOf TimedEvent.fill rfl]
  decide

lemma skeleton_kbSectionTrace (k : SectionKind) :
    skeleton (kbSectionTrace k) = [Sum.inl k] := by
  rw [kbSectionTrace, skeleton, List.filterMap_append, List.filterMap_append,
    filterMap_flatten_replicate_none skeletonOf [TimedEvent.enq, TimedEvent.fill] rfl]
  rfl

lemma skeleton_singleVC (k : Int) :
    skeleton [TimedEvent.verifyCall k] = [Sum.inr k] := rfl

lemma sectionStarts_kernelSectionTrace :
    sectionStarts kernelSectionTrace = [SectionKind.kernel] := by
  rw [kernelSectionTrace, sectionStarts, List.filterMap_append, List.filterMap_append,
    filterMap_replicate_none startKindOf TimedEvent.enq rfl]
  decide

lemma sectionStarts_bufferSectionTrace :
    sectionStarts bufferSectionTrace = [SectionKind.buffer] := by
  rw [bufferSectionTrace, sectionStarts, List.filterMap_append, List.filterMap_append,
    filterMap_replicate_none startKindOf TimedEvent.fill rfl]
  decide

lemma sectionStarts_kbSectionTrace (k : SectionKind) :
    sectionStarts (kbSectionTrace k) = [k] := by
  rw [kbSectionTrace, sectionStarts, List.filterMap_append, List.filterMap_append,
    filterMap_flatten_replicate_none startKindOf [TimedEvent.enq, TimedEvent.fill] rfl]
  rfl

lemma sectionStarts_singleVC (k : Int) :
    sectionStarts [TimedEvent.verifyCall k] = [] := rfl

lemma skeleton_nil : skeleton [] = [] := rfl

lemma sectionStarts_nil : sectionStarts [] = [] := rfl

lemma skeleton_cons_vc (k : Int) (rest : List TimedEvent) :
    skeleton (TimedEvent.verifyCall k :: rest) = Sum.inr k :: skeleton rest := rfl

lemma sectionStarts_cons_vc (k : Int) (rest : List TimedEvent) :
    sectionStarts (TimedEvent.verifyCall k :: rest) = sectionStarts rest := rfl

lemma skeleton_mainTrace :
    skeleton mainTrace =
      [Sum.inl SectionKind.kernel, Sum.inl SectionKind.buffer, Sum.inr 800,
        Sum.inl SectionKind.kernelBufferBlocking, Sum.inr 10800,
        Sum.inl SectionKind.kernelBufferNonBlocking, Sum.inr 20800,
        Sum.inl SectionKind.kernelBufferUnordered, Sum.inr 30800] := by
  rw [mainTrace]
  simp only [skeleton_append, skeleton_kernelSectionTrace, skeleton_bufferSectionTrace,
    skeleton_kbSectionTrace, skeleton_singleVC, skeleton_cons_vc, skeleton_nil, List.singleton_append,
    List.cons_append, List.nil_append]
  norm_num [KERNEL_RUN_ITERS, KERNEL_AND_BUFFER_ITERS]

lemma sectionStarts_mainTrace :
    sectionStarts mainTrace =
      [SectionKind.kernel, SectionKind.buffer, SectionKind.kernelBufferBlocking,
        SectionKind.kernelBufferNonBlocking, SectionKind.kernelBufferUnordered] := by
  rw [mainTrace]
  simp only [sectionStarts_append, sectionStarts_kernelSectionTrace,
    sectionStarts_bufferSectionTrace, sectionStarts_kbSectionTrace, sectionStarts_singleVC,
    sectionStarts_cons_vc, sectionStarts_nil, List.singleton_append, List.cons_append,
    List.nil_append]

/-- Claim C2 counterexample: the event trace of `main` in timed.rs does
not contain exactly four timed loops — it opens five timed sections. -/
theorem timed_four_loops_counterexample :
    ¬ ((sectionStarts mainTrace).length = 4) := by
  rw [sectionStarts_mainTrace]
  decide

/-- Claim C2 (amended): timed.rs runs exactly five successive timed
loops — kernel-only, buffer-read-only, blocking kernel+buffer,
non-blocking kernel+buffer with event-list ordering, and a final
non-blocking kernel+buffer loop without ordering — and the last four of
them are each followed by a `verify_results` correctness check, with
`iters` arguments 800, 10800, 20800 and 30800. -/
theorem timed_five_loops_skeleton :
    (sectionStarts mainTrace).length = 5 ∧
    sectionStarts mainTrace =
      [SectionKind.kernel, SectionKind.buffer, SectionKind.kernelBufferBlocking,
        SectionKind.kernelBufferNonBlocking, SectionKind.kernelBufferUnordered] ∧
    skeleton mainTrace =
      [Sum.inl SectionKind.kernel, Sum.inl SectionKind.buffer, Sum.inr 800,
        Sum.inl SectionKind.kernelBufferBlocking, Sum.inr 10800,
        Sum.inl SectionKind.kernelBufferNonBlocking, Sum.inr 20800,
        Sum.inl SectionKind.kernelBufferUnordered, Sum.inr 30800] := by
  rw [sectionStarts_mainTrace, skeleton_mainTrace]
  exact ⟨rfl, rfl, rfl⟩

end Timed

end Ocl

namespace Ocl

namespace Timed

lemma enqIter_dev_hostAfter (init : Nat → ℚ) (c : ℚ) (n : Nat) (b : OclBuffer)
    (hdev : b.dev = hostAfter init c) :
    ((enqueueSelf SCALAR)^[n] b).dev = hostAfter init (c + (n : ℚ)) := by
  funext i
  rw [enqueueSelf_iterate_dev, hdev]
  simp only [hostAfter]
  by_cases hi : i < DATASET_SIZE
  · rw [if_pos hi, if_pos hi, if_pos hi]
    ring
  · rw [if_neg hi, if_neg hi, if_neg hi]

lemma kbIter_eq_hostAfter (init : Nat → ℚ) (c : ℚ) (n : Nat) (hn : 0 < n) (b : OclBuffer)
    (hdev : b.dev = hostAfter init c) :
    (fun x => fill_vec (enqueueSelf SCALAR x))^[n] b =
      { dev := hostAfter init (c + (n : ℚ)), host := hostAfter init (c + (n : ℚ)) } := by
  have h1 : ((fun x => fill_vec (enqueueSelf SCALAR x))^[n] b).dev =
      hostAfter init (c + (n : ℚ)) := by
    funext i
    rw [kbStep_iterate_dev, hdev]
    simp only [hostAfter]
    by_cases hi : i < DATASET_SIZE
    · rw [if_pos hi, if_pos hi, if_pos hi]
      ring
    · rw [if_neg hi, if_neg hi, if_neg hi]
  have h2 : ((fun x => fill_vec (enqueueSelf SCALAR x))^[n] b).host =
      hostAfter init (c + (n : ℚ)) := by
    rw [kbStep_iterate_host SCALAR n hn, h1]
  calc (fun x => fill_vec (enqueueSelf SCALAR x))^[n] b =
      ⟨((fun x => fill_vec (enqueueSelf SCALAR x))^[n] b).dev,
        ((fun x => fill_vec (enqueueSelf SCALAR x))^[n] b).host⟩ := rfl
    _ = _ := by rw [h1, h2]

lemma timedMain_eq (init : Nat → ℚ) :
    timedMain init =
      [(init, hostAfter init 800, (800 : Int)),
       (init, hostAfter init 10800, (10800 : Int)),
       (init, hostAfter init 20800, (20800 : Int)),
       (init, hostAfter init 30800, (30800 : Int))] := by
  simp only [timedMain]
  have hz : (KERNEL_RUN_ITERS - 1).toNat = 799 := by decide
  have hbr : BUFFER_READ_ITERS.toNat = 20 := by decide
  have hkb : KERNEL_AND_BUFFER_ITERS.toNat = 10000 := by decide
  rw [hz, hbr, hkb]
  have hb1dev : ({ bufferZero with dev := kernelAdd init SCALAR bufferZero.dev } : OclBuffer).dev =
      hostAfter init 1 := by
    funext i
    show kernelAdd init SCALAR bufferZero.dev i = _
    simp only [kernelAdd, hostAfter, bufferZero]
    by_cases hi : i < DATASET_SIZE
    · rw [if_pos hi, if_pos hi]
      ring
    · rw [if_neg hi, if_neg hi]
  have hb2dev :
      ((enqueueSelf SCALAR)^[799]
        ({ bufferZero with dev := kernelAdd init SCALAR bufferZero.dev } : OclBuffer)).dev =
      hostAfter init 800 := by
    rw [enqIter_dev_hostAfter init 1 799 _ hb1dev]
    norm_num
  have hb3 : fill_vec^[20]
      ((enqueueSelf SCALAR)^[799]
        ({ bufferZero with dev := kernelAdd init SCALAR bufferZero.dev } : OclBuffer)) =
      { dev := hostAfter init 800, host := hostAfter init 800 } := by
    rw [fill_vec_iterate 20 (by norm_num), hb2dev]
  rw [hb3]
  have hb4 : (fun x => fill_vec (enqueueSelf SCALAR x))^[10000]
      ({ dev := hostAfter init 800, host := hostAfter init 800 } : OclBuffer) =
      { dev := hostAfter init 10800, host := hostAfter init 10800 } := by
    rw [kbIter_eq_hostAfter init 800 10000 (by norm_num) _ rfl]
    norm_num
  rw [hb4]
  have hb5 : (fun x => fill_vec (enqueueSelf SCALAR x))^[10000]
      ({ dev := hostAfter init 10800, host := hostAfter init 10800 } : OclBuffer) =
      { dev := hostAfter init 20800, host := hostAfter init 20800 } := by
    rw [kbIter_eq_hostAfter init 10800 10000 (by norm_num) _ rfl]
    norm_num
  rw [hb5]
  have hb6 : (fun x => fill_vec (enqueueSelf SCALAR x))^[10000]
      ({ dev := hostAfter init 20800, host := hostAfter init 20800 } : OclBuffer) =
      { dev := hostAfter init 30800, host := hostAfter init 30800 } := by
    rw [kbIter_eq_hostAfter init 20800 10000 (by norm_num) _ rfl]
    norm_num
  rw [hb6]
  norm_num [KERNEL_RUN_ITERS, KERNEL_AND_BUFFER_ITERS]

/-- Claim C8: verify_results is read-only with respect to both buffers —
every one of the four verification calls of `main` receives the
untouched initial buffer contents and a result buffer that has kept
accumulating on them — and the cumulative `iters` arguments 800, 10800,
20800 and 30800 passed to the four calls equal the number of kernel
enqueues performed before each call. -/
theorem timed_verify_cumulative_counts (init : Nat → ℚ) :
    timedMain init =
      [(init, hostAfter init 800, (800 : Int)),
       (init, hostAfter init 10800, (10800 : Int)),
       (init, hostAfter init 20800, (20800 : Int)),
       (init, hostAfter init 30800, (30800 : Int))] ∧
    verifyChecks mainTrace 0 =
      [(800, 800), (10800, 10800), (20800, 20800), (30800, 30800)] :=
  ⟨timedMain_eq init, verifyChecks_mainTrace⟩

end Timed

end Ocl

namespace Ocl

namespace Timed

/-- Claim C10: print_elapsed always prints a well-formed
seconds.milliseconds value — the fractional field equals
floor(subsec_nanos / 1000000) of the elapsed duration, lies in 0..=999,
and is zero-padded to exactly three decimal digits — for every elapsed
duration (whole seconds plus sub-second nanoseconds below one second). -/
theorem print_elapsed_well_formed (secs subsec_nanos : Nat)
    (h : subsec_nanos < 1000000000) :
    (print_elapsed secs subsec_nanos).1 = secs ∧
    (print_elapsed secs subsec_nanos).2 = fmtPad3 (subsec_nanos / 1000000) ∧
    subsec_nanos / 1000000 ≤ 999 ∧
    (print_elapsed secs subsec_nanos).2.length = 3 ∧
    (∀ d ∈ (print_elapsed secs subsec_nanos).2, d < 10) ∧
    digitsVal3 (print_elapsed secs subsec_nanos).2 = subsec_nanos / 1000000 := by
  have hms : subsec_nanos / 1000000 < 1000 := by omega
  refine ⟨rfl, rfl, by omega, ?_, ?_, ?_⟩
  · show (fmtPad3 (subsec_nanos / 1000000)).length = 3
    rw [fmtPad3, if_pos hms]
    rfl
  · show ∀ d ∈ fmtPad3 (subsec_nanos / 1000000), d < 10
    rw [fmtPad3, if_pos hms]
    intro d hd
    rcases List.mem_cons.mp hd with rfl | hd
    · omega
    rcases List.mem_cons.mp hd with rfl | hd
    · omega
    rcases List.mem_cons.mp hd with rfl | hd
    · omega
    · exact absurd hd (List.not_mem_nil _)
  · show digitsVal3 (fmtPad3 (subsec_nanos / 1000000)) = subsec_nanos / 1000000
    rw [fmtPad3, if_pos hms, digitsVal3]
    omega

theorem print_elapsed_well_formed_witness :
    987654321 < 1000000000 ∧
    digitsVal3 (print_elapsed 1 987654321).2 = 987654321 / 1000000 :=
  ⟨by decide, (print_elapsed_well_formed 1 987654321 (by decide)).2.2.2.2.2⟩

end Timed

namespace Info

/-- Claim C5: whether the detailed or the summary output is produced for
devices and programs is gated solely by the compile-time booleans —
print_device_info emits the full Display form exactly when
PRINT_DETAILED_DEVICE is set and otherwise the one-line Name/Vendor
summary, print_program_info emits the full Display form exactly when
PRINT_DETAILED_PROGRAM is set and otherwise the one-line summary of the
four program-info fields — and under the constants of info.rs both emit
exactly their summary line. -/
theorem info_print_flags_gate (pdd pdp pd : Bool) (d : DeviceR) (p : ProgramR) :
    ((InfoLine.deviceFull d.display ∈ print_device_info pdd pd d) ↔ pdd = true) ∧
    ((InfoLine.deviceSummary d.name d.vendor ∈ print_device_info pdd pd d) ↔ pdd = false) ∧
    ((InfoLine.programFull p.display ∈ print_program_info pdp pd p) ↔ pdp = true) ∧
    ((InfoLine.programSummary p.kernelNames p.numDevices p.referenceCount p.context ∈
      print_program_info pdp pd p) ↔ pdp = false) ∧
    print_device_info PRINT_DETAILED_DEVICE PRINT_DETAILED d =
      [InfoLine.deviceSummary d.name d.vendor] ∧
    print_program_info PRINT_DETAILED_PROGRAM PRINT_DETAILED p =
      [InfoLine.programSummary p.kernelNames p.numDevices p.referenceCount p.context] := by
  refine ⟨?_, ?_, ?_, ?_, ?_, ?_⟩
  · cases pdd <;> cases pd <;> simp [print_device_info]
  · cases pdd <;> cases pd <;> simp [print_device_info]
  · cases pdp <;> cases pd <;> simp [print_program_info]
  · cases pdp <;> cases pd <;> simp [print_program_info]
  · simp [print_device_info, PRINT_DETAILED_DEVICE, PRINT_DETAILED]
  · simp [print_program_info, PRINT_DETAILED_PROGRAM, PRINT_DETAILED]

end Info

end Ocl

namespace Ocl

namespace Info

lemma count_deviceIter (a : InfoAction) (last : Bool) (n d : Nat) :
    (deviceIter last n d).count a =
      deviceBaseActions.count a +
        (if d = n - 1 ∧ last then deviceDetailActions.count a else 0) := by
  rw [deviceIter, List.count_append]
  congr 1
  by_cases h : d = n - 1 ∧ last
  · rw [if_pos h, if_pos h]
  · rw [if_neg h, if_neg h, List.count_nil]

lemma count_deviceLoop (a : InfoAction) (last : Bool) (n : Nat) :
    (((List.range n).map (deviceIter last n)).flatten).count a =
      n * deviceBaseActions.count a +
        (if last ∧ 0 < n then deviceDetailActions.count a else 0) := by
  cases n with
  | zero => simp
  | succ m =>
    rw [List.range_succ, List.map_append, List.flatten_append, List.count_append]
    have h1 : (List.range m).map (deviceIter last (m + 1)) =
        (List.range m).map (fun _ => deviceBaseActions) := by
      apply List.map_congr_left
      intro d hd
      rw [List.mem_range] at hd
      rw [deviceIter, if_neg, List.append_nil]
      intro hcontra
      exact absurd hcontra.1 (by omega)
    rw [h1]
    have h2 : ((List.range m).map (fun _ => deviceBaseActions)).flatten.count a =
        m * deviceBaseActions.count a := by
      rw [List.map_const', List.length_range, count_flatten_replicate]
    rw [h2]
    have h3 : (([m].map (deviceIter last (m + 1))).flatten).count a =
        deviceBaseActions.count a + (if last then deviceDetailActions.count a else 0) := by
      show ((deviceIter last (m + 1) m) ++ []).count a = _
      rw [List.append_nil, count_deviceIter]
      congr 1
      have hm : m = (m + 1) - 1 := by omega
      by_cases hl : last
      · have hcond : m = m + 1 - 1 ∧ last = true := ⟨hm, hl⟩
        rw [if_pos hcond, if_pos hl]
      · have hcond : ¬ (m = m + 1 - 1 ∧ last = true) := fun hc => hl hc.2
        rw [if_neg hcond, if_neg hl]
    rw [h3]
    by_cases hl : last
    · have hcond : last = true ∧ 0 < m + 1 := ⟨hl, Nat.succ_pos m⟩
      rw [if_pos hcond, if_pos hl, Nat.succ_mul]
      omega
    · have hcond : ¬ (last = true ∧ 0 < m + 1) := fun hc => hl hc.1
      rw [if_neg hcond, if_neg hl, Nat.succ_mul]
      omega

end Info

end Ocl

namespace Ocl

namespace Info

lemma count_platformIter (a : InfoAction) (last : Bool) (n : Nat) :
    (platformIter last n).count a =
      platformHeaderActions.count a + n * deviceBaseActions.count a +
        (if last ∧ 0 < n then deviceDetailActions.count a else 0) := by
  rw [platformIter, List.count_append, count_deviceLoop, Nat.add_assoc]

lemma count_platformsLoop (a : InfoAction) : ∀ ps : List Nat,
    (platformsLoop ps).count a =
      ps.length * platformHeaderActions.count a + ps.sum * deviceBaseActions.count a +
        lastDetail ps * deviceDetailActions.count a := by
  intro ps
  induction ps with
  | nil => simp [platformsLoop, lastDetail]
  | cons n tail ih =>
    cases tail with
    | nil =>
      show (platformIter true n).count a = _
      rw [count_platformIter]
      have hld : lastDetail [n] = if 0 < n then 1 else 0 := by
        rw [lastDetail]
        rfl
      rw [hld]
      by_cases hn : 0 < n
      · have hcond : true = true ∧ 0 < n := ⟨rfl, hn⟩
        rw [if_pos hcond, if_pos hn]
        simp [List.length_cons, List.sum_cons]
      · have hcond : ¬ (true = true ∧ 0 < n) := fun hc => hn hc.2
        rw [if_neg hcond, if_neg hn]
        simp [List.length_cons, List.sum_cons]
    | cons n2 rest =>
      show (platformIter false n ++ platformsLoop (n2 :: rest)).count a = _
      rw [List.count_append, count_platformIter, ih]
      have hcond : ¬ (false = true ∧ 0 < n) := fun hc => Bool.false_ne_true hc.1
      rw [if_neg hcond]
      have hld : lastDetail (n :: n2 :: rest) = lastDetail (n2 :: rest) := by
        rw [lastDetail, lastDetail, List.getLast?_cons_cons]
      rw [hld]
      simp [List.length_cons, List.sum_cons]
      ring

/-- Claim C3 counterexample: on a single platform with two devices,
info.rs creates one context, not one per device — the context is built
once per platform, outside the device loop. -/
theorem info_context_per_device_counterexample :
    ¬ ((infoMain [2]).count InfoAction.createContext = ([2] : List Nat).sum) := by
  decide

lemma infoMain_detail_suffix : ∀ (ps : List Nat) (n : Nat),
    ps.getLast? = some n → 0 < n →
      ∃ pre, infoMain ps = pre ++ (deviceBaseActions ++ deviceDetailActions) := by
  intro ps
  induction ps with
  | nil =>
    intro n h _
    simp at h
  | cons m tail ih =>
    intro n hlast hn
    cases tail with
    | nil =>
      have hmn : m = n := by simpa using hlast
      subst hmn
      obtain ⟨m2, rfl⟩ : ∃ m2, m = m2 + 1 := ⟨m - 1, by omega⟩
      refine ⟨platformHeaderActions ++
        ((List.range m2).map (deviceIter true (m2 + 1))).flatten, ?_⟩
      show platformIter true (m2 + 1) = _
      rw [platformIter, List.range_succ, List.map_append, List.flatten_append]
      have hdev : deviceIter true (m2 + 1) m2 = deviceBaseActions ++ deviceDetailActions := by
        rw [deviceIter, if_pos]
        exact ⟨by omega, rfl⟩
      show platformHeaderActions ++ (_ ++ ([deviceIter true (m2 + 1) m2].flatten)) = _
      rw [hdev]
      simp [List.append_assoc]
    | cons m2 rest =>
      have hlast2 : (m2 :: rest).getLast? = some n := by
        rwa [List.getLast?_cons_cons] at hlast
      obtain ⟨pre, hpre⟩ := ih n hlast2 hn
      rw [infoMain] at hpre
      refine ⟨platformIter false m ++ pre, ?_⟩
      show platformIter false m ++ platformsLoop (m2 :: rest) = _
      rw [hpre, List.append_assoc]

/-- Claim C3 (amended): info.rs iterates over all platforms and their
devices, creating one context per platform (not per device) and a
queue, buffer, image, sampler, program and kernel per device, enqueuing
one kernel run per device and printing device info per device and
platform info per platform; the remaining object-type printouts
(context, queue, buffer, image, sampler, program, kernel, event-list
and event info) each happen exactly once, at the last device of the
last platform — the action trace ends with that final device pass
followed by the detail prints — provided the last platform has a
device, and zero times otherwise. -/
theorem info_per_platform_per_device_counts (ps : List Nat) :
    (infoMain ps).count InfoAction.createContext = ps.length ∧
    (infoMain ps).count InfoAction.printPlatform = ps.length ∧
    (infoMain ps).count InfoAction.createQueue = ps.sum ∧
    (infoMain ps).count InfoAction.createBuffer = ps.sum ∧
    (infoMain ps).count InfoAction.createImage = ps.sum ∧
    (infoMain ps).count InfoAction.createSampler = ps.sum ∧
    (infoMain ps).count InfoAction.createProgram = ps.sum ∧
    (infoMain ps).count InfoAction.createKernel = ps.sum ∧
    (infoMain ps).count InfoAction.enqKernel = ps.sum ∧
    (infoMain ps).count InfoAction.printDevice = ps.sum ∧
    (infoMain ps).count InfoAction.printContext = lastDetail ps ∧
    (infoMain ps).count InfoAction.printQueue = lastDetail ps ∧
    (infoMain ps).count InfoAction.printBuffer = lastDetail ps ∧
    (infoMain ps).count InfoAction.printImage = lastDetail ps ∧
    (infoMain ps).count InfoAction.printSampler = lastDetail ps ∧
    (infoMain ps).count InfoAction.printProgram = lastDetail ps ∧
    (infoMain ps).count InfoAction.printKernel = lastDetail ps ∧
    (infoMain ps).count InfoAction.printEventList = lastDetail ps ∧
    (infoMain ps).count InfoAction.printEvent = lastDetail ps ∧
    (∀ n, ps.getLast? = some n → 0 < n →
      ∃ pre, infoMain ps = pre ++ (deviceBaseActions ++ deviceDetailActions)) := by
  refine ⟨?_, ?_, ?_, ?_, ?_, ?_, ?_, ?_, ?_, ?_, ?_, ?_, ?_, ?_, ?_, ?_, ?_, ?_, ?_,
    infoMain_detail_suffix ps⟩ <;>
    rw [infoMain, count_platformsLoop] <;>
    · norm_num [show platformHeaderActions.count InfoAction.createContext = 1 from by decide,
        show platformHeaderActions.count InfoAction.printPlatform = 1 from by decide,
        show platformHeaderActions.count InfoAction.createQueue = 0 from by decide,
        show platformHeaderActions.count InfoAction.createBuffer = 0 from by decide,
        show platformHeaderActions.count InfoAction.createImage = 0 from by decide,
        show platformHeaderActions.count InfoAction.createSampler = 0 from by decide,
        show platformHeaderActions.count InfoAction.createProgram = 0 from by decide,
        show platformHeaderActions.count InfoAction.createKernel = 0 from by decide,
        show platformHeaderActions.count InfoAction.enqKernel = 0 from by decide,
        show platformHeaderActions.count InfoAction.printDevice = 0 from by decide,
        show platformHeaderActions.count InfoAction.printContext = 0 from by decide,
        show platformHeaderActions.count InfoAction.printProgram = 0 from by decide,
        show deviceBaseActions.count InfoAction.createContext = 0 from by decide,
        show deviceBaseActions.count InfoAction.printPlatform = 0 from by decide,
        show deviceBaseActions.count InfoAction.createQueue = 1 from by decide,
        show deviceBaseActions.count InfoAction.createBuffer = 1 from by decide,
        show deviceBaseActions.count InfoAction.createImage = 1 from by decide,
        show deviceBaseActions.count InfoAction.createSampler = 1 from by decide,
        show deviceBaseActions.count InfoAction.createProgram = 1 from by decide,
        show deviceBaseActions.count InfoAction.createKernel = 1 from by decide,
        show deviceBaseActions.count InfoAction.enqKernel = 1 from by decide,
        show deviceBaseActions.count InfoAction.printDevice = 1 from by decide,
        show deviceBaseActions.count InfoAction.printContext = 0 from by decide,
        show deviceBaseActions.count InfoAction.printProgram = 0 from by decide,
        show deviceDetailActions.count InfoAction.createContext = 0 from by decide,
        show deviceDetailActions.count InfoAction.printPlatform = 0 from by decide,
        show deviceDetailActions.count InfoAction.createQueue = 0 from by decide,
        show deviceDetailActions.count InfoAction.createBuffer = 0 from by decide,
        show deviceDetailActions.count InfoAction.createImage = 0 from by decide,
        show deviceDetailActions.count InfoAction.createSampler = 0 from by decide,
        show deviceDetailActions.count InfoAction.createProgram = 0 from by decide,
        show deviceDetailActions.count InfoAction.createKernel = 0 from by decide,
        show deviceDetailActions.count InfoAction.enqKernel = 0 from by decide,
        show deviceDetailActions.count InfoAction.printDevice = 0 from by decide,
        show deviceDetailActions.count InfoAction.printContext = 1 from by decide,
        show deviceDetailActions.count InfoAction.printProgram = 1 from by decide,
        show platformHeaderActions.count InfoAction.printQueue = 0 from by decide,
        show platformHeaderActions.count InfoAction.printBuffer = 0 from by decide,
        show platformHeaderActions.count InfoAction.printImage = 0 from by decide,
        show platformHeaderActions.count InfoAction.printSampler = 0 from by decide,
        show platformHeaderActions.count InfoAction.printKernel = 0 from by decide,
        show platformHeaderActions.count InfoAction.printEventList = 0 from by decide,
        show platformHeaderActions.count InfoAction.printEvent = 0 from by decide,
        show deviceBaseActions.count InfoAction.printQueue = 0 from by decide,
        show deviceBaseActions.count InfoAction.printBuffer = 0 from by decide,
        show deviceBaseActions.count InfoAction.printImage = 0 from by decide,
        show deviceBaseActions.count InfoAction.printSampler = 0 from by decide,
        show deviceBaseActions.count InfoAction.printKernel = 0 from by decide,
        show deviceBaseActions.count InfoAction.printEventList = 0 from by decide,
        show deviceBaseActions.count InfoAction.printEvent = 0 from by decide,
        show deviceDetailActions.count InfoAction.printQueue = 1 from by decide,
        show deviceDetailActions.count InfoAction.printBuffer = 1 from by decide,
        show deviceDetailActions.count InfoAction.printImage = 1 from by decide,
        show deviceDetailActions.count InfoAction.printSampler = 1 from by decide,
        show deviceDetailActions.count InfoAction.printKernel = 1 from by decide,
        show deviceDetailActions.count InfoAction.printEventList = 1 from by decide,
        show deviceDetailActions.count InfoAction.printEvent = 1 from by decide]

theorem info_per_platform_per_device_counts_witness :
    ([2] : List Nat).getLast? = some 2 ∧ 0 < 2 ∧
    ∃ pre, infoMain [2] = pre ++ (deviceBaseActions ++ deviceDetailActions) := by
  obtain ⟨-, -, -, -, -, -, -, -, -, -, -, -, -, -, -, -, -, -, -, hsuf⟩ :=
    info_per_platform_per_device_counts [2]
  exact ⟨rfl, by decide, hsuf 2 rfl (by decide)⟩

end Info

end Ocl

namespace Ocl

lemma runSteps_ok_iff (l : List Step) : ∀ (o : Nat → Bool) (n : Nat),
    isOkE (runSteps l o n) = true ↔
      ∀ k, n ≤ k → k < n + unwrapCount l → o k = true := by
  induction l with
  | nil =>
    intro o n
    constructor
    · intro _ k h1 h2
      rw [unwrapCount] at h2
      simp [List.countP_nil] at h2
      omega
    · intro _
      rfl
  | cons s rest ih =>
    intro o n
    cases s with
    | plainOp =>
      show isOkE (runSteps rest o n) = true ↔ _
      rw [ih o n]
      have hc : unwrapCount (Step.plainOp :: rest) = unwrapCount rest := by
        rw [unwrapCount, unwrapCount, List.countP_cons_of_neg]
        simp [isUnwrap]
      rw [hc]
    | assertOp =>
      show isOkE (runSteps rest o n) = true ↔ _
      rw [ih o n]
      have hc : unwrapCount (Step.assertOp :: rest) = unwrapCount rest := by
        rw [unwrapCount, unwrapCount, List.countP_cons_of_neg]
        simp [isUnwrap]
      rw [hc]
    | unwrapOp =>
      have hc : unwrapCount (Step.unwrapOp :: rest) = unwrapCount rest + 1 := by
        rw [unwrapCount, unwrapCount, List.countP_cons_of_pos]
        rfl
      rw [hc]
      show isOkE (if o n = true then runSteps rest o (n + 1) else Except.error n) = true ↔ _
      by_cases ho : o n = true
      · rw [if_pos ho, ih o (n + 1)]
        constructor
        · intro H k h1 h2
          rcases Nat.eq_or_lt_of_le h1 with rfl | h1
          · exact ho
          · exact H k h1 (by omega)
        · intro H k h1 h2
          exact H k (by omega) (by omega)
      · rw [if_neg ho]
        constructor
        · intro hFalse
          exact absurd hFalse (by simp [isOkE])
        · intro H
          exact absurd (H n (Nat.le_refl n) (by omega)) ho

lemma runSteps_error_spec (l : List Step) : ∀ (o : Nat → Bool) (n k : Nat),
    runSteps l o n = Except.error k →
      o k = false ∧ n ≤ k ∧ ∀ j, n ≤ j → j < k → o j = true := by
  induction l with
  | nil =>
    intro o n k hE
    simp [runSteps] at hE
  | cons s rest ih =>
    intro o n k hE
    cases s with
    | plainOp => exact ih o n k hE
    | assertOp => exact ih o n k hE
    | unwrapOp =>
      rw [runSteps] at hE
      by_cases ho : o n = true
      · rw [if_pos ho] at hE
        obtain ⟨h1, h2, h3⟩ := ih o (n + 1) k hE
        refine ⟨h1, by omega, ?_⟩
        intro j hj1 hj2
        rcases Nat.eq_or_lt_of_le hj1 with rfl | hj1
        · exact ho
        · exact h3 j hj1 hj2
      · rw [if_neg ho] at hE
        have hk : k = n := by
          simpa using hE.symm
        subst hk
        exact ⟨by simpa using ho, Nat.le_refl k, fun j hj1 hj2 => by omega⟩

/-- Claim C6: all error handling in both examples consists of unwrapping
the results of the fallible external-library calls, aborting at the
first failure, plus the single assert-based tolerance check: a run of
either straight-line step sequence succeeds exactly when every one of
its unwrapped calls succeeds, and any failure aborts the run at the
first failed call, with no recovery, retry or partial-failure path. -/
theorem examples_unwrap_only_error_handling (o : Nat → Bool) (ps : List Nat) :
    (isOkE (runSteps timedSteps o 0) = true ↔
      ∀ k, k < unwrapCount timedSteps → o k = true) ∧
    (∀ k, runSteps timedSteps o 0 = Except.error k →
      o k = false ∧ ∀ j, j < k → o j = true) ∧
    (isOkE (runSteps (Info.infoSteps ps) o 0) = true ↔
      ∀ k, k < unwrapCount (Info.infoSteps ps) → o k = true) ∧
    (∀ k, runSteps (Info.infoSteps ps) o 0 = Except.error k →
      o k = false ∧ ∀ j, j < k → o j = true) := by
  refine ⟨?_, ?_, ?_, ?_⟩
  · rw [runSteps_ok_iff]
    constructor
    · intro H k hk
      exact H k (Nat.zero_le k) (by omega)
    · intro H k _ hk
      exact H k (by omega)
  · intro k hE
    obtain ⟨h1, _, h3⟩ := runSteps_error_spec timedSteps o 0 k hE
    exact ⟨h1, fun j hj => h3 j (Nat.zero_le j) hj⟩
  · rw [runSteps_ok_iff]
    constructor
    · intro H k hk
      exact H k (Nat.zero_le k) (by omega)
    · intro H k _ hk
      exact H k (by omega)
  · intro k hE
    obtain ⟨h1, _, h3⟩ := runSteps_error_spec (Info.infoSteps ps) o 0 k hE
    exact ⟨h1, fun j hj => h3 j (Nat.zero_le j) hj⟩

theorem examples_unwrap_only_error_handling_witness :
    runSteps timedSteps (fun _ => false) 0 = Except.error 0 ∧
    ((fun _ : Nat => false) 0 = false ∧
      ∀ j, j < 0 → (fun _ : Nat => false) j = true) :=
  ⟨rfl, (examples_unwrap_only_error_handling (fun _ => false) []).2.1 0 rfl⟩

/-- Claim C7: neither example binary reads command-line arguments or any
environment input — for a fixed set of external-library responses, the
observable behaviour of each program is the same for every invocation
environment, being determined entirely by the compile-time constants of
the source. -/
theorem examples_ignore_args_env (init : Nat → ℚ) (o : Nat → Bool) (ps : List Nat)
    (args1 args2 : List String) (env1 env2 : String → Option String) :
    timedBehaviour init o args1 env1 = timedBehaviour init o args2 env2 ∧
    infoBehaviour ps o args1 env1 = infoBehaviour ps o args2 env2 :=
  ⟨rfl, rfl⟩

end Ocl
